import Mathlib

/-!
Shallow embedding of the Chain-Reaction portfolio engine
(`backend/models/rating_models.py` and `backend/models/optimizationmodels.py`)
together with theorems settling the frozen claims about it.

Python floats are modelled as exact rationals `ℚ` (reals `ℝ` only where the
source computes a non-integer power).  Python code that can raise an
exception is modelled with `Option`/`Except`.
-/

set_option maxRecDepth 4000

namespace ChainReaction

/-- `RiskProfile` enum from `rating_models.py` (lines 11-14). -/
inductive RiskProfile where
  | lowRisk
  | mediumRisk
  | highRisk
deriving DecidableEq, Repr

/-- The coefficient state of a `RatingModel` instance: the six top-level
coefficients, the five fundamental sub-weights and the active risk profile
(the attributes set in `RatingModel.__init__`, lines 151-189). -/
structure RatingModel where
  riskProfile : RiskProfile
  alpha : ℚ
  beta : ℚ
  gamma : ℚ
  delta : ℚ
  epsilon : ℚ
  zeta : ℚ
  w1 : ℚ
  w2 : ℚ
  w3 : ℚ
  w4 : ℚ
  w5 : ℚ
deriving DecidableEq, Repr

/-- The `RISK_PROFILES` literal table (`rating_models.py` lines 40-83). -/
def riskProfiles : RiskProfile → RatingModel
  | .lowRisk =>
      { riskProfile := .lowRisk
        alpha := 10/100, beta := 10/100, gamma := 40/100
        delta := 20/100, epsilon := 15/100, zeta := 5/100
        w1 := 25/100, w2 := 30/100, w3 := 15/100, w4 := 20/100, w5 := 10/100 }
  | .mediumRisk =>
      { riskProfile := .mediumRisk
        alpha := 20/100, beta := 20/100, gamma := 30/100
        delta := 10/100, epsilon := 10/100, zeta := 10/100
        w1 := 20/100, w2 := 20/100, w3 := 20/100, w4 := 20/100, w5 := 20/100 }
  | .highRisk =>
      { riskProfile := .highRisk
        alpha := 30/100, beta := 30/100, gamma := 20/100
        delta := 5/100, epsilon := 5/100, zeta := 10/100
        w1 := 10/100, w2 := 10/100, w3 := 30/100, w4 := 15/100, w5 := 35/100 }

/-- `np.isclose(a, b)` with NumPy default tolerances
(`rtol = 1e-5`, `atol = 1e-8`): `|a - b| ≤ atol + rtol * |b|`.
Used by `RatingModel.__init__` at lines 172 and 183. -/
def npIsClose (a b : ℚ) : Prop :=
  |a - b| ≤ 1/100000000 + (1/100000) * |b|

instance decNpIsClose (a b : ℚ) : Decidable (npIsClose a b) :=
  inferInstanceAs (Decidable (|a - b| ≤ 1/100000000 + (1/100000) * |b|))

/-- `RatingModel.__init__` (`rating_models.py` lines 125-189): take each
coefficient from the override argument when supplied, otherwise from the
selected risk profile; then rescale each weight group by `1/total` unless
its total is already `np.isclose` to 1 (rescaling by the factor 1 in the
close case is the identity, matching the code's skipped branch). -/
def RatingModel.init (risk_profile : RiskProfile)
    (alphaArg betaArg gammaArg deltaArg epsilonArg zetaArg
     w1Arg w2Arg w3Arg w4Arg w5Arg : Option ℚ) : RatingModel :=
  let p := riskProfiles risk_profile
  let a := alphaArg.getD p.alpha
  let b := betaArg.getD p.beta
  let g := gammaArg.getD p.gamma
  let d := deltaArg.getD p.delta
  let e := epsilonArg.getD p.epsilon
  let z := zetaArg.getD p.zeta
  let v1 := w1Arg.getD p.w1
  let v2 := w2Arg.getD p.w2
  let v3 := w3Arg.getD p.w3
  let v4 := w4Arg.getD p.w4
  let v5 := w5Arg.getD p.w5
  let total_model := a + b + g + d + e + z
  let factor_model := if npIsClose total_model 1 then 1 else 1 / total_model
  let total_fundamental := v1 + v2 + v3 + v4 + v5
  let factor_fundamental :=
    if npIsClose total_fundamental 1 then 1 else 1 / total_fundamental
  { riskProfile := risk_profile
    alpha := a * factor_model
    beta := b * factor_model
    gamma := g * factor_model
    delta := d * factor_model
    epsilon := e * factor_model
    zeta := z * factor_model
    w1 := v1 * factor_fundamental
    w2 := v2 * factor_fundamental
    w3 := v3 * factor_fundamental
    w4 := v4 * factor_fundamental
    w5 := v5 * factor_fundamental }

/-- `RatingModel(risk_profile=p)` with no coefficient overrides; this is also
what the factory `get_model_for_risk_profile` returns (lines 85-96). -/
def RatingModel.ofProfile (p : RiskProfile) : RatingModel :=
  RatingModel.init p none none none none none none none none none none none

/-- `RatingModel.switch_risk_profile` (`rating_models.py` lines 98-123):
overwrite every coefficient with the values of the new profile's table
entry, without any renormalization. -/
def RatingModel.switchRiskProfile (_m : RatingModel) (new_profile : RiskProfile) :
    RatingModel :=
  let p := riskProfiles new_profile
  { riskProfile := new_profile
    alpha := p.alpha, beta := p.beta, gamma := p.gamma
    delta := p.delta, epsilon := p.epsilon, zeta := p.zeta
    w1 := p.w1, w2 := p.w2, w3 := p.w3, w4 := p.w4, w5 := p.w5 }

/-! ### Historical returns (`rating_models.py` lines 191-242) -/

/-- Result record of `calculate_historical_returns`.  The annualized return
involves a non-integer power, so it lives in `ℝ`; the window returns are
plain rational arithmetic. -/
structure HistoricalReturns where
  annualized_return : ℝ
  one_year_return : ℚ
  three_month_return : ℚ
  one_month_return : ℚ
  total_return : ℚ

/-- `total_return = price_history.iloc[-1] / price_history.iloc[0] - 1`
(line 214). -/
def totalReturn (price_history : List ℚ) : ℚ :=
  price_history.getD (price_history.length - 1) 0 / price_history.getD 0 0 - 1

/-- `annualized_return = (1 + total_return) ** (1 / max(years, 1)) - 1` with
`years = len(price_history) / 252` (lines 217-220). -/
noncomputable def annualizedReturn (price_history : List ℚ) : ℝ :=
  (1 + (totalReturn price_history : ℝ)) ^
      ((1 : ℝ) / max ((price_history.length : ℝ) / 252) 1) - 1

/-- Trailing window return `price_history.iloc[-1] /
price_history.iloc[-min(window, len)] - 1`, computed only when at least
`window` points exist (lines 227-234). -/
def windowReturn (price_history : List ℚ) (window : ℕ) : ℚ :=
  if window ≤ price_history.length then
    price_history.getD (price_history.length - 1) 0 /
        price_history.getD (price_history.length - min window price_history.length) 0 - 1
  else 0

/-- `RatingModel.calculate_historical_returns` (lines 191-242). -/
noncomputable def calculate_historical_returns (price_history : List ℚ) :
    HistoricalReturns :=
  if price_history.length < 2 then
    { annualized_return := 0, one_year_return := 0, three_month_return := 0
      one_month_return := 0, total_return := 0 }
  else
    { annualized_return := annualizedReturn price_history
      one_year_return := windowReturn price_history 252
      three_month_return := windowReturn price_history 63
      one_month_return := windowReturn price_history 21
      total_return := totalReturn price_history }

/-! ### Fundamental score (`rating_models.py` lines 244-419) -/

/-- One normalized fundamental component: the bucket score and its
qualitative assessment string. -/
structure FundComponent where
  normalized_score : ℚ
  assessment : String
deriving DecidableEq, Repr

/-- P/E bucketing (lines 267-288): relative to the sector average with
ratio thresholds 0.7, 0.9, 1.1, 1.3, 1.5. -/
def normalizedPe (pe sector_pe : ℚ) : FundComponent :=
  if pe ≤ 0 then ⟨0, "Negative (Poor)"⟩
  else if pe < sector_pe * (7/10) then
    ⟨1, "Significantly Below Sector Average (Excellent)"⟩
  else if pe < sector_pe * (9/10) then ⟨8/10, "Below Sector Average (Good)"⟩
  else if pe < sector_pe * (11/10) then ⟨6/10, "Near Sector Average (Average)"⟩
  else if pe < sector_pe * (13/10) then
    ⟨4/10, "Above Sector Average (Below Average)"⟩
  else if pe < sector_pe * (15/10) then
    ⟨2/10, "Significantly Above Sector Average (Poor)"⟩
  else ⟨0, "Extremely High (Very Poor)"⟩

/-- D/E bucketing (lines 290-311): relative to the sector average with
ratio thresholds 0.5, 0.8, 1.2, 1.5, 2.0. -/
def normalizedDe (de sector_de : ℚ) : FundComponent :=
  if de < 0 then ⟨0, "Negative (Poor)"⟩
  else if de < sector_de * (5/10) then ⟨1, "Very Low Debt (Excellent)"⟩
  else if de < sector_de * (8/10) then ⟨8/10, "Below Sector Average (Good)"⟩
  else if de < sector_de * (12/10) then ⟨6/10, "Near Sector Average (Average)"⟩
  else if de < sector_de * (15/10) then
    ⟨4/10, "Above Sector Average (Below Average)"⟩
  else if de < sector_de * 2 then ⟨2/10, "High Debt (Poor)"⟩
  else ⟨0, "Very High Debt (Very Poor)"⟩

/-- ROE bucketing with absolute thresholds (lines 313-331). -/
def normalizedRoe (roe : ℚ) : FundComponent :=
  if roe < 0 then ⟨0, "Negative (Poor)"⟩
  else if roe < 5/100 then ⟨2/10, "Low (Poor)"⟩
  else if roe < 10/100 then ⟨4/10, "Below Average (Below Average)"⟩
  else if roe < 15/100 then ⟨6/10, "Average (Average)"⟩
  else if roe < 20/100 then ⟨8/10, "Good (Good)"⟩
  else ⟨1, "Excellent (Excellent)"⟩

/-- FCF-yield bucketing with absolute thresholds (lines 333-351). -/
def normalizedFcf (fcf_yield : ℚ) : FundComponent :=
  if fcf_yield < 0 then ⟨0, "Negative (Poor)"⟩
  else if fcf_yield < 2/100 then ⟨2/10, "Low (Poor)"⟩
  else if fcf_yield < 4/100 then ⟨4/10, "Below Average (Below Average)"⟩
  else if fcf_yield < 6/100 then ⟨6/10, "Average (Average)"⟩
  else if fcf_yield < 8/100 then ⟨8/10, "Good (Good)"⟩
  else ⟨1, "Excellent (Excellent)"⟩

/-- Profit-margin bucketing with absolute thresholds (lines 353-371). -/
def normalizedPm (profit_margin : ℚ) : FundComponent :=
  if profit_margin < 0 then ⟨0, "Negative (Poor)"⟩
  else if profit_margin < 5/100 then ⟨2/10, "Low (Poor)"⟩
  else if profit_margin < 10/100 then ⟨4/10, "Below Average (Below Average)"⟩
  else if profit_margin < 15/100 then ⟨6/10, "Average (Average)"⟩
  else if profit_margin < 20/100 then ⟨8/10, "Good (Good)"⟩
  else ⟨1, "Excellent (Excellent)"⟩

/-- Result record of `calculate_fundamental_score` (composite plus the five
normalized components; the echoed raw values and weights of the source's
dict are omitted). -/
structure FundamentalScore where
  composite_score : ℚ
  pe_component : FundComponent
  de_component : FundComponent
  roe_component : FundComponent
  fcf_component : FundComponent
  pm_component : FundComponent
deriving DecidableEq, Repr

/-- `RatingModel.calculate_fundamental_score` (lines 244-419): bucket each
of the five metrics, then composite = `w1*pe + w2*de + w3*roe + w4*fcf +
w5*pm`. -/
def calculate_fundamental_score (m : RatingModel)
    (pe de roe fcf_yield profit_margin sector_pe sector_de : ℚ) :
    FundamentalScore :=
  let cpe := normalizedPe pe sector_pe
  let cde := normalizedDe de sector_de
  let croe := normalizedRoe roe
  let cfcf := normalizedFcf fcf_yield
  let cpm := normalizedPm profit_margin
  { composite_score :=
      m.w1 * cpe.normalized_score + m.w2 * cde.normalized_score +
        m.w3 * croe.normalized_score + m.w4 * cfcf.normalized_score +
        m.w5 * cpm.normalized_score
    pe_component := cpe
    de_component := cde
    roe_component := croe
    fcf_component := cfcf
    pm_component := cpm }

/-! ### Market sentiment score (`rating_models.py` lines 553-644) -/

/-- The `technical_indicators` dict: every indicator may be absent. -/
structure TechnicalIndicators where
  price : Option ℚ
  ma50 : Option ℚ
  ma200 : Option ℚ
  rsi : Option ℚ
  macd : Option ℚ
  macdSignal : Option ℚ
  volume : Option ℚ
  avgVolume : Option ℚ

/-- RSI grading (lines 581-594): 0 when overbought (`rsi > 70`), 0.5 when
oversold (`rsi < 30`), 1 in the healthy range. -/
def rsiScore (rsi : ℚ) : ℚ :=
  if 70 < rsi then 0 else if rsi < 30 then 1/2 else 1

/-- The `price_vs_ma50` component, present only when both `price` and
`ma_50` are given (lines 566-571). -/
def ma50Component (t : TechnicalIndicators) : List ℚ :=
  match t.price, t.ma50 with
  | some price, some ma => [if ma < price then 1 else 0]
  | _, _ => []

/-- The `price_vs_ma200` component (lines 573-578). -/
def ma200Component (t : TechnicalIndicators) : List ℚ :=
  match t.price, t.ma200 with
  | some price, some ma => [if ma < price then 1 else 0]
  | _, _ => []

/-- The `rsi` component (lines 581-600). -/
def rsiComponent (t : TechnicalIndicators) : List ℚ :=
  match t.rsi with
  | some r => [rsiScore r]
  | none => []

/-- The `macd` component, present when both `macd` and `macd_signal` are
given (lines 603-610). -/
def macdComponent (t : TechnicalIndicators) : List ℚ :=
  match t.macd, t.macdSignal with
  | some macd, some signal => [if signal < macd then 1 else 0]
  | _, _ => []

/-- The `volume` component, present when both `volume` and `avg_volume` are
given (lines 613-621). -/
def volumeComponent (t : TechnicalIndicators) : List ℚ :=
  match t.volume, t.avgVolume with
  | some vol, some avg => [if avg < vol then 1 else 0]
  | _, _ => []

/-- The values of the sentiment components that are present, in the order
the source inserts them into `components`. -/
def sentimentComponents (t : TechnicalIndicators) : List ℚ :=
  ma50Component t ++ ma200Component t ++ rsiComponent t ++
    macdComponent t ++ volumeComponent t

/-- `RatingModel.calculate_sentiment_score` composite (lines 623-626):
`sum(values) / max(1, count)`. -/
def calculate_sentiment_score (t : TechnicalIndicators) : ℚ :=
  (sentimentComponents t).sum / (max 1 (sentimentComponents t).length : ℕ)

/-! ### Investment score (`rating_models.py` lines 775-888) -/

/-- The six signed weighted components, reused for the contribution split. -/
structure WeightedComponents where
  returns_premium : ℚ
  growth_projection : ℚ
  fundamental_metrics : ℚ
  volatility : ℚ
  systematic_risk : ℚ
  market_sentiment : ℚ
deriving DecidableEq, Repr

/-- Python float division: raises `ZeroDivisionError` on a zero divisor,
modelled as `none`. -/
def pyDiv (a b : ℚ) : Option ℚ :=
  if b = 0 then none else some (a / b)

/-- Result record of `calculate_investment_score` (scalar fields of the
returned dict; the echoed coefficient values are omitted). -/
structure InvestmentScoreResult where
  investment_score : ℚ
  raw_score : ℚ
  weighted_components : WeightedComponents
  component_contribution : WeightedComponents
deriving DecidableEq, Repr

/-- `RatingModel.calculate_investment_score` (lines 775-888), taking the
primary metric extracted from each input dict (lines 798-804).  The
contribution attribution divides each weighted component by the positive
pool when the component is positive and by the negative pool otherwise;
only the case where both pools are zero is guarded (lines 846-865), so a
division by zero (Python `ZeroDivisionError`, here `none`) remains
possible. -/
def calculate_investment_score (m : RatingModel)
    (annualized_return risk_free_rate growth_composite fundamental_composite
     annualized_volatility stock_beta sentiment_composite : ℚ) :
    Option InvestmentScoreResult :=
  let returns_premium := annualized_return - risk_free_rate
  let weighted_returns := m.alpha * returns_premium
  let weighted_growth := m.beta * growth_composite
  let weighted_fundamentals := m.gamma * fundamental_composite
  let weighted_volatility := -m.delta * annualized_volatility
  let weighted_beta := -m.epsilon * (stock_beta - 1)
  let weighted_sentiment := m.zeta * sentiment_composite
  let raw_score := weighted_returns + weighted_growth + weighted_fundamentals +
    weighted_volatility + weighted_beta + weighted_sentiment
  let normalized_score := min 1 (max 0 ((raw_score + 2/10) / (7/10)))
  let total_positive := max 0 weighted_returns + max 0 weighted_growth +
    max 0 weighted_fundamentals + max 0 weighted_volatility +
    max 0 weighted_beta + max 0 weighted_sentiment
  let total_negative := min 0 weighted_returns + min 0 weighted_growth +
    min 0 weighted_fundamentals + min 0 weighted_volatility +
    min 0 weighted_beta + min 0 weighted_sentiment
  let contribution : Option WeightedComponents :=
    if total_positive = 0 ∧ total_negative = 0 then
      some ⟨0, 0, 0, 0, 0, 0⟩
    else do
      let cr ← pyDiv weighted_returns
        (if 0 < weighted_returns then total_positive else total_negative)
      let cg ← pyDiv weighted_growth
        (if 0 < weighted_growth then total_positive else total_negative)
      let cf ← pyDiv weighted_fundamentals
        (if 0 < weighted_fundamentals then total_positive else total_negative)
      let cv ← pyDiv weighted_volatility
        (if 0 < weighted_volatility then total_positive else total_negative)
      let cb ← pyDiv weighted_beta
        (if 0 < weighted_beta then total_positive else total_negative)
      let cs ← pyDiv weighted_sentiment
        (if 0 < weighted_sentiment then total_positive else total_negative)
      pure ⟨cr, cg, cf, cv, cb, cs⟩
  contribution.map fun c =>
    { investment_score := normalized_score
      raw_score := raw_score
      weighted_components :=
        ⟨weighted_returns, weighted_growth, weighted_fundamentals,
         weighted_volatility, weighted_beta, weighted_sentiment⟩
      component_contribution := c }

/-! ### Covariance matrix (`optimizationmodels.py` lines 302-345)

The yfinance fetch is the external-collaborator boundary: it is modelled as
a map `histData : String → Option (List ℚ)` giving, per ticker, the daily
returns series when history is retrievable. -/

/-- Arithmetic mean of a list (pandas `Series.mean`). -/
def listMean (l : List ℚ) : ℚ :=
  l.sum / (l.length : ℚ)

/-- Sample covariance of two aligned series, pandas `DataFrame.cov` style
(`ddof = 1`): `Σ (x_i - x̄)(y_i - ȳ) / (n - 1)`. -/
def sampleCov (xs ys : List ℚ) : ℚ :=
  ((xs.zip ys).map fun p => (p.1 - listMean xs) * (p.2 - listMean ys)).sum /
    ((xs.length : ℚ) - 1)

/-- The returns column used for a ticker: its fetched series when history
is available, otherwise the scalar `0.0` broadcast over the common index
(`returns_df[t] = 0.0`, line 340). -/
def tickerColumn (histData : String → Option (List ℚ)) (n : ℕ) (t : String) :
    List ℚ :=
  match histData t with
  | some r => r
  | none => List.replicate n 0

/-- `PortfolioOptimizationModel.calculate_covariance_matrix` (lines
302-345), as a total matrix over the requested tickers.  When no ticker has
retrievable history, the hand-built fallback matrix (variance 0.04,
covariance 0.02) is returned (lines 325-332); otherwise missing tickers
become all-zero columns and the annualized sample covariance
(`returns_df.cov() * 252`) is taken. -/
def calculate_covariance_matrix (tickers : List String)
    (histData : String → Option (List ℚ)) : String → String → ℚ :=
  let avail := tickers.filter fun t => (histData t).isSome
  if avail.isEmpty then
    fun i j => if i = j then 4/100 else 2/100
  else
    let n := ((avail.head?.bind histData).getD []).length
    fun i j =>
      sampleCov (tickerColumn histData n i) (tickerColumn histData n j) * 252

/-! ### Portfolio optimization (`optimizationmodels.py` lines 347-438) -/

/-- One row of `evaluate_tickers`'s result frame, restricted to the columns
`optimize_portfolio` reads. -/
structure EvalResult where
  ticker : String
  investment_score : ℚ
  historical_returns : ℚ
  growth_projections : ℚ
  current_price : ℚ
deriving DecidableEq, Repr

/-- `calculate_expected_returns` (lines 281-300):
`(0.3*hist + 0.7*growth) * (0.5 + 0.5*score)`. -/
def expectedReturn (r : EvalResult) : ℚ :=
  (3/10 * r.historical_returns + 7/10 * r.growth_projections) *
    (5/10 + 5/10 * r.investment_score)

/-- Insert into a score-descending list (used to model pandas `nlargest`). -/
def insertDescByScore (r : EvalResult) : List EvalResult → List EvalResult
  | [] => [r]
  | x :: xs =>
      if x.investment_score < r.investment_score then r :: x :: xs
      else x :: insertDescByScore r xs

/-- Sort descending by investment score. -/
def sortDescByScore : List EvalResult → List EvalResult
  | [] => []
  | x :: xs => insertDescByScore x (sortDescByScore xs)

/-- pandas `nlargest(k, "investment_score")`. -/
def nlargestByScore (k : ℕ) (l : List EvalResult) : List EvalResult :=
  (sortDescByScore l).take k

/-- The candidate-selection step of `optimize_portfolio` (lines 364-375):
keep the rows whose score meets `min_investment_score`; when none does,
fall back to the top `min(3, len)` rows by score. -/
def selectCandidates (min_investment_score : ℚ) (results : List EvalResult) :
    List EvalResult :=
  let filtered := results.filter fun r =>
    min_investment_score ≤ r.investment_score
  if filtered.isEmpty then
    nlargestByScore (min 3 results.length) results
  else filtered

/-- The constructor parameters of `PortfolioOptimizationModel`
(lines 25-50). -/
structure OptimizationParams where
  investment_amount : ℚ
  min_investment_score : ℚ
  risk_aversion : ℚ
  max_weight_per_stock : ℚ
deriving DecidableEq, Repr

/-- The data handed to `scipy.optimize.minimize` (lines 394-419): the
objective is determined by the expected returns, the covariance matrix and
the risk aversion; the box bound and the equality constraint by
`max_weight_per_stock`; the initial guess is equal weights. -/
structure SolverProblem where
  expected_returns : List ℚ
  cov : String → String → ℚ
  tickers : List String
  risk_aversion : ℚ
  max_weight_per_stock : ℚ
  initial_weights : List ℚ

/-- Configuration errors an allocator could surface.  The source never
constructs one: `optimize_portfolio` has no feasibility check. -/
inductive AllocError where
  | degenerateConstraints
deriving DecidableEq, Repr

/-- Insert into an amount-descending list of allocation rows (the final
`portfolio.sort(key=..., reverse=True)`, line 436). -/
def insertDescByAmount (r : String × ℚ × ℚ) :
    List (String × ℚ × ℚ) → List (String × ℚ × ℚ)
  | [] => [r]
  | x :: xs =>
      if x.2.2 < r.2.2 then r :: x :: xs else x :: insertDescByAmount r xs

/-- Sort allocation rows descending by invested amount. -/
def sortDescByAmount : List (String × ℚ × ℚ) → List (String × ℚ × ℚ)
  | [] => []
  | x :: xs => insertDescByAmount x (sortDescByAmount xs)

/-- `PortfolioOptimizationModel.optimize_portfolio` (lines 347-438) from the
point where the per-ticker evaluations are in hand; the SciPy SLSQP call is
the external solver, taken as an opaque function `solver` from the problem
data to a weight vector.  Every control path returns `Except.ok`: the
weights the solver reports are turned directly into dollar amounts
(`weight * investment_amount`), rows with positive amounts are kept and
sorted descending (lines 421-438).  (The patch at lines 384-389 for tickers
absent from the covariance index can never fire, because
`calculate_covariance_matrix` always covers every requested ticker, and is
therefore not modelled.) -/
def optimizePortfolioCore (p : OptimizationParams)
    (solver : SolverProblem → List ℚ)
    (histData : String → Option (List ℚ))
    (evaluation_results : List EvalResult) :
    Except AllocError (List (String × ℚ × ℚ)) :=
  if evaluation_results.isEmpty then .ok []
  else
    let candidates := selectCandidates p.min_investment_score evaluation_results
    let filtered_tickers := candidates.map (·.ticker)
    let expected_returns := candidates.map expectedReturn
    let cov_matrix := calculate_covariance_matrix filtered_tickers histData
    let initial_weights :=
      List.replicate candidates.length ((1 : ℚ) / (candidates.length : ℚ))
    let optimal_weights := solver
      { expected_returns := expected_returns
        cov := cov_matrix
        tickers := filtered_tickers
        risk_aversion := p.risk_aversion
        max_weight_per_stock := p.max_weight_per_stock
        initial_weights := initial_weights }
    let rows := (candidates.zip optimal_weights).filterMap fun cw =>
      let investment := cw.2 * p.investment_amount
      if 0 < investment then some (cw.1.ticker, cw.1.current_price, investment)
      else none
    .ok (sortDescByAmount rows)

/-! ### Claim-side definitions

Definitions below transcribe statements of the specification (not the
source), for comparison with the source-derived definitions above. -/

/-- The annualization formula as the spec states it:
`(1 + total_return) ^ (252 / n) - 1` where `n` is the number of price
points.  (The source instead uses the exponent `1 / max(n / 252, 1)`.) -/
noncomputable def specAnnualizedReturn (price_history : List ℚ) : ℝ :=
  (1 + (totalReturn price_history : ℝ)) ^
      ((252 : ℝ) / (price_history.length : ℝ)) - 1

/-- The D/E bucket mapping as the claim states it: ratio thresholds
0.7, 0.9, 1.1, 1.3, 1.5 relative to the sector average. -/
def claimDeScore (de sector_de : ℚ) : ℚ :=
  if de < 0 then 0
  else if de < sector_de * (7/10) then 1
  else if de < sector_de * (9/10) then 8/10
  else if de < sector_de * (11/10) then 6/10
  else if de < sector_de * (13/10) then 4/10
  else if de < sector_de * (15/10) then 2/10
  else 0

/-- The D/E bucket mapping as amended to the ratio thresholds the source
actually uses: 0.5, 0.8, 1.2, 1.5, 2.0 relative to the sector average,
with every negative value scored 0. -/
def amendedDeScore (de sector_de : ℚ) : ℚ :=
  if de < 0 then 0
  else if de < sector_de * (5/10) then 1
  else if de < sector_de * (8/10) then 8/10
  else if de < sector_de * (12/10) then 6/10
  else if de < sector_de * (15/10) then 4/10
  else if de < sector_de * 2 then 2/10
  else 0

/-- The D/E assessment labels paired with `amendedDeScore`; every negative
value is labelled "Negative (Poor)". -/
def amendedDeLabel (de sector_de : ℚ) : String :=
  if de < 0 then "Negative (Poor)"
  else if de < sector_de * (5/10) then "Very Low Debt (Excellent)"
  else if de < sector_de * (8/10) then "Below Sector Average (Good)"
  else if de < sector_de * (12/10) then "Near Sector Average (Average)"
  else if de < sector_de * (15/10) then "Above Sector Average (Below Average)"
  else if de < sector_de * 2 then "High Debt (Poor)"
  else "Very High Debt (Very Poor)"

/-- A model built with a positive supplied `alpha` (0.20001) whose weight
group then sums to 1.00001: within NumPy's `isclose` tolerance, so the
source skips renormalization. -/
def c6Model : RatingModel :=
  RatingModel.init .mediumRisk (some (20001/100000))
    none none none none none none none none none none

/-- History map in which only ticker "A" has retrievable returns. -/
def histDataAOnly : String → Option (List ℚ) :=
  fun t => if t = "A" then some [1/100, 2/100, 3/100] else none

/-- Technical indicators with exactly one present component
(price above the 50-day moving average). -/
def indicatorsMa50Only : TechnicalIndicators :=
  { price := some 10, ma50 := some 5, ma200 := none, rsi := none
    macd := none, macdSignal := none, volume := none, avgVolume := none }

/-- The six top-level coefficients' sum (checked against 1 at
`rating_models.py` line 171). -/
def modelSum (m : RatingModel) : ℚ :=
  m.alpha + m.beta + m.gamma + m.delta + m.epsilon + m.zeta

/-- The five fundamental sub-weights' sum (checked against 1 at
`rating_models.py` line 182). -/
def fundamentalSum (m : RatingModel) : ℚ :=
  m.w1 + m.w2 + m.w3 + m.w4 + m.w5

/-! ### Theorems settling the claims -/

/-- `Option.getD` of positives is positive. -/
theorem getD_pos (o : Option ℚ) (d : ℚ) (h : ∀ x, o = some x → 0 < x)
    (hd : 0 < d) : 0 < o.getD d := by
  cases o with
  | none => exact hd
  | some x => simpa using h x rfl

/-- Every coefficient in the built-in risk-profile table is positive. -/
theorem riskProfiles_pos (rp : RiskProfile) :
    0 < (riskProfiles rp).alpha ∧ 0 < (riskProfiles rp).beta ∧
    0 < (riskProfiles rp).gamma ∧ 0 < (riskProfiles rp).delta ∧
    0 < (riskProfiles rp).epsilon ∧ 0 < (riskProfiles rp).zeta ∧
    0 < (riskProfiles rp).w1 ∧ 0 < (riskProfiles rp).w2 ∧
    0 < (riskProfiles rp).w3 ∧ 0 < (riskProfiles rp).w4 ∧
    0 < (riskProfiles rp).w5 := by
  cases rp <;> norm_num [riskProfiles]

/-- A six-element weight group scaled by `__init__`'s conditional factor
sums to within the `np.isclose` tolerance of 1. -/
theorem scaled_group_sum6 (a b c d e f : ℚ) (h : 0 < a + b + c + d + e + f) :
    |a * (if npIsClose (a + b + c + d + e + f) 1 then 1
            else 1 / (a + b + c + d + e + f)) +
      b * (if npIsClose (a + b + c + d + e + f) 1 then 1
            else 1 / (a + b + c + d + e + f)) +
      c * (if npIsClose (a + b + c + d + e + f) 1 then 1
            else 1 / (a + b + c + d + e + f)) +
      d * (if npIsClose (a + b + c + d + e + f) 1 then 1
            else 1 / (a + b + c + d + e + f)) +
      e * (if npIsClose (a + b + c + d + e + f) 1 then 1
            else 1 / (a + b + c + d + e + f)) +
      f * (if npIsClose (a + b + c + d + e + f) 1 then 1
            else 1 / (a + b + c + d + e + f)) - 1| ≤
      1/100000000 + 1/100000 := by
  have hsum : a * (if npIsClose (a + b + c + d + e + f) 1 then 1
            else 1 / (a + b + c + d + e + f)) +
      b * (if npIsClose (a + b + c + d + e + f) 1 then 1
            else 1 / (a + b + c + d + e + f)) +
      c * (if npIsClose (a + b + c + d + e + f) 1 then 1
            else 1 / (a + b + c + d + e + f)) +
      d * (if npIsClose (a + b + c + d + e + f) 1 then 1
            else 1 / (a + b + c + d + e + f)) +
      e * (if npIsClose (a + b + c + d + e + f) 1 then 1
            else 1 / (a + b + c + d + e + f)) +
      f * (if npIsClose (a + b + c + d + e + f) 1 then 1
            else 1 / (a + b + c + d + e + f)) =
      (a + b + c + d + e + f) *
        (if npIsClose (a + b + c + d + e + f) 1 then 1
          else 1 / (a + b + c + d + e + f)) := by ring
  rw [hsum]
  split_ifs with hc
  · rw [mul_one]
    unfold npIsClose at hc
    simpa using hc
  · rw [mul_one_div, div_self (ne_of_gt h)]
    norm_num

/-- A five-element weight group scaled by `__init__`'s conditional factor
sums to within the `np.isclose` tolerance of 1. -/
theorem scaled_group_sum5 (a b c d e : ℚ) (h : 0 < a + b + c + d + e) :
    |a * (if npIsClose (a + b + c + d + e) 1 then 1
            else 1 / (a + b + c + d + e)) +
      b * (if npIsClose (a + b + c + d + e) 1 then 1
            else 1 / (a + b + c + d + e)) +
      c * (if npIsClose (a + b + c + d + e) 1 then 1
            else 1 / (a + b + c + d + e)) +
      d * (if npIsClose (a + b + c + d + e) 1 then 1
            else 1 / (a + b + c + d + e)) +
      e * (if npIsClose (a + b + c + d + e) 1 then 1
            else 1 / (a + b + c + d + e)) - 1| ≤
      1/100000000 + 1/100000 := by
  have hsum : a * (if npIsClose (a + b + c + d + e) 1 then 1
            else 1 / (a + b + c + d + e)) +
      b * (if npIsClose (a + b + c + d + e) 1 then 1
            else 1 / (a + b + c + d + e)) +
      c * (if npIsClose (a + b + c + d + e) 1 then 1
            else 1 / (a + b + c + d + e)) +
      d * (if npIsClose (a + b + c + d + e) 1 then 1
            else 1 / (a + b + c + d + e)) +
      e * (if npIsClose (a + b + c + d + e) 1 then 1
            else 1 / (a + b + c + d + e)) =
      (a + b + c + d + e) *
        (if npIsClose (a + b + c + d + e) 1 then 1
          else 1 / (a + b + c + d + e)) := by ring
  rw [hsum]
  split_ifs with hc
  · rw [mul_one]
    unfold npIsClose at hc
    simpa using hc
  · rw [mul_one_div, div_self (ne_of_gt h)]
    norm_num


/-- Each built-in profile's weight groups already sum to exactly 1, so
`RatingModel(risk_profile=p)` keeps the table values unchanged. -/
theorem ofProfile_eq (p : RiskProfile) :
    RatingModel.ofProfile p = riskProfiles p := by
  cases p <;>
    norm_num [RatingModel.ofProfile, RatingModel.init, riskProfiles, npIsClose]


/-- C1: for every finite input (historical returns, risk-free rate, growth
outlook, fundamental metrics, volatility metrics, systematic risk, market
sentiment — with any values, including pathological ones), whenever
`calculate_investment_score` returns a result, its investment score lies in
[0,1] inclusive and equals `clamp((raw + 0.2) / 0.7, 0, 1)` of the raw
weighted score. -/
theorem c1_score_bounds (m : RatingModel)
    (annualized_return risk_free_rate growth_composite fundamental_composite
     annualized_volatility stock_beta sentiment_composite : ℚ)
    (r : InvestmentScoreResult)
    (h : calculate_investment_score m annualized_return risk_free_rate
        growth_composite fundamental_composite annualized_volatility
        stock_beta sentiment_composite = some r) :
    0 ≤ r.investment_score ∧ r.investment_score ≤ 1 ∧
      r.investment_score = min 1 (max 0 ((r.raw_score + 2/10) / (7/10))) := by
  simp only [calculate_investment_score, Option.map_eq_some'] at h
  obtain ⟨c, _, hr⟩ := h
  subst hr
  refine ⟨le_min (by norm_num) (le_max_left 0 _), min_le_left _ _, rfl⟩

/-- Witness for C1 at a concrete input: medium-risk model, all metrics
zero and beta 1, where the function returns a result with score 2/7. -/
theorem c1_score_bounds_witness :
    calculate_investment_score (RatingModel.ofProfile .mediumRisk) 0 0 0 0 0 1 0 =
      some ⟨2/7, 0, ⟨0, 0, 0, 0, 0, 0⟩, ⟨0, 0, 0, 0, 0, 0⟩⟩ ∧
    0 ≤ ((⟨2/7, 0, ⟨0, 0, 0, 0, 0, 0⟩, ⟨0, 0, 0, 0, 0, 0⟩⟩ :
        InvestmentScoreResult)).investment_score ∧
    ((⟨2/7, 0, ⟨0, 0, 0, 0, 0, 0⟩, ⟨0, 0, 0, 0, 0, 0⟩⟩ :
        InvestmentScoreResult)).investment_score ≤ 1 := by
  have heval : calculate_investment_score (RatingModel.ofProfile .mediumRisk)
      0 0 0 0 0 1 0 =
      some ⟨2/7, 0, ⟨0, 0, 0, 0, 0, 0⟩, ⟨0, 0, 0, 0, 0, 0⟩⟩ := by
    rw [ofProfile_eq]
    norm_num [calculate_investment_score, riskProfiles, pyDiv, max_def, min_def]
  exact ⟨heval,
    (c1_score_bounds (RatingModel.ofProfile .mediumRisk) 0 0 0 0 0 1 0 _ heval).1,
    (c1_score_bounds (RatingModel.ofProfile .mediumRisk) 0 0 0 0 0 1 0 _ heval).2.1⟩

/-- C7: the contribution-attribution step of `calculate_investment_score`
does divide by zero on finite inputs.  At the medium-risk profile with
annualized return = risk-free rate = 0.04, growth 0.5, fundamentals 0.5,
volatility 0, beta 1 and sentiment 0.5, the pools are `total_positive =
0.3`, `total_negative = 0`, the both-zero guard does not fire, and the
returns-premium component (weight 0) is divided by the zero negative pool:
the call raises (returns `none`) instead of reporting contribution 0. -/
theorem c7_division_by_zero :
    calculate_investment_score (RatingModel.ofProfile .mediumRisk)
      (1/25) (1/25) (1/2) (1/2) 0 1 (1/2) = none := by
  rw [ofProfile_eq]
  norm_num [calculate_investment_score, riskProfiles, pyDiv, max_def, min_def]

/-- C2: `optimize_portfolio` never surfaces a `DegenerateConstraints`
error.  For the single candidate "A" (score 0.9, price 100) with
`max_weight_per_stock = 0.3` and `investment_amount = 10000` — an input
where `max_weight × candidate_count = 0.3 < 1` makes `Σw = 1` infeasible —
the result is `Except.ok` of a portfolio built from whatever weights the
solver reports, for every solver and every history map; in particular a
solver returning the clipped weight 0.3 yields a silently accepted $3000
allocation. -/
theorem c2_no_degenerate_check :
    (∀ (solver : SolverProblem → List ℚ)
       (histData : String → Option (List ℚ)),
        ∃ rows, optimizePortfolioCore ⟨10000, 65/100, 2, 3/10⟩ solver histData
          [⟨"A", 9/10, 1/10, 1/10, 100⟩] = .ok rows) ∧
    (∀ histData : String → Option (List ℚ),
        optimizePortfolioCore ⟨10000, 65/100, 2, 3/10⟩ (fun _ => [3/10]) histData
          [⟨"A", 9/10, 1/10, 1/10, 100⟩] = .ok [("A", 100, 3000)]) := by
  refine ⟨fun solver histData => ⟨_, rfl⟩, fun histData => ?_⟩
  norm_num [optimizePortfolioCore, selectCandidates, nlargestByScore,
    sortDescByScore, insertDescByScore, sortDescByAmount, insertDescByAmount,
    expectedReturn, List.filterMap_cons]

/-- C10: for every risk profile `p`, a `RatingModel` freshly constructed
with profile `p` and a model constructed with any built-in profile `q` and
then mutated via `switch_risk_profile(p)` hold identical coefficients and
produce identical outputs from `calculate_fundamental_score` and
`calculate_investment_score`. -/
theorem c10_profile_switch_equiv (p q : RiskProfile) :
    (RatingModel.ofProfile q).switchRiskProfile p = RatingModel.ofProfile p ∧
    (∀ pe de roe fcf_yield profit_margin sector_pe sector_de : ℚ,
      calculate_fundamental_score ((RatingModel.ofProfile q).switchRiskProfile p)
          pe de roe fcf_yield profit_margin sector_pe sector_de =
        calculate_fundamental_score (RatingModel.ofProfile p)
          pe de roe fcf_yield profit_margin sector_pe sector_de) ∧
    (∀ ar rf g f v b s : ℚ,
      calculate_investment_score ((RatingModel.ofProfile q).switchRiskProfile p)
          ar rf g f v b s =
        calculate_investment_score (RatingModel.ofProfile p) ar rf g f v b s) := by
  have h : (RatingModel.ofProfile q).switchRiskProfile p =
      RatingModel.ofProfile p := by
    rw [ofProfile_eq p]
    cases p <;> rfl
  exact ⟨h, fun _ _ _ _ _ _ _ => by rw [h], fun _ _ _ _ _ _ _ => by rw [h]⟩

/-- C6 counterexample: the claim fails on the code.  Constructing a
`RatingModel` from the positive supplied weight `alpha = 0.20001` (medium
profile otherwise) gives a coefficient sum of 1.00001: within NumPy's
`isclose` tolerance, so `__init__` skips renormalization, and the sum is
not within ±1e-9 of 1. -/
theorem c6_counterexample :
    ¬(|modelSum c6Model - 1| ≤ 1/1000000000 ∧
      |fundamentalSum c6Model - 1| ≤ 1/1000000000) := by
  norm_num [c6Model, modelSum, fundamentalSum, RatingModel.init, riskProfiles,
    npIsClose, abs_of_nonneg]

/-- C6 (amended): for every `RatingModel` constructed from any combination
of positive supplied weights, after construction the six top-level
coefficients sum to 1 within NumPy's `isclose` tolerance `1e-8 + 1e-5`
(not ±1e-9: renormalization is skipped inside that tolerance band, and
rescaling makes the sum exactly 1 otherwise), and likewise the five
fundamental sub-weights. -/
theorem c6_weight_sums (rp : RiskProfile)
    (aArg bArg gArg dArg eArg zArg v1Arg v2Arg v3Arg v4Arg v5Arg : Option ℚ)
    (ha : ∀ x, aArg = some x → 0 < x) (hb : ∀ x, bArg = some x → 0 < x)
    (hg : ∀ x, gArg = some x → 0 < x) (hd : ∀ x, dArg = some x → 0 < x)
    (he : ∀ x, eArg = some x → 0 < x) (hz : ∀ x, zArg = some x → 0 < x)
    (h1 : ∀ x, v1Arg = some x → 0 < x) (h2 : ∀ x, v2Arg = some x → 0 < x)
    (h3 : ∀ x, v3Arg = some x → 0 < x) (h4 : ∀ x, v4Arg = some x → 0 < x)
    (h5 : ∀ x, v5Arg = some x → 0 < x) :
    |modelSum (RatingModel.init rp aArg bArg gArg dArg eArg zArg
        v1Arg v2Arg v3Arg v4Arg v5Arg) - 1| ≤ 1/100000000 + 1/100000 ∧
    |fundamentalSum (RatingModel.init rp aArg bArg gArg dArg eArg zArg
        v1Arg v2Arg v3Arg v4Arg v5Arg) - 1| ≤ 1/100000000 + 1/100000 := by
  obtain ⟨pa, pb, pg, pd, pe, pz, p1, p2, p3, p4, p5⟩ := riskProfiles_pos rp
  have h6 : 0 < aArg.getD (riskProfiles rp).alpha +
      bArg.getD (riskProfiles rp).beta + gArg.getD (riskProfiles rp).gamma +
      dArg.getD (riskProfiles rp).delta +
      eArg.getD (riskProfiles rp).epsilon + zArg.getD (riskProfiles rp).zeta :=
    add_pos (add_pos (add_pos (add_pos (add_pos
      (getD_pos _ _ ha pa) (getD_pos _ _ hb pb)) (getD_pos _ _ hg pg))
      (getD_pos _ _ hd pd)) (getD_pos _ _ he pe)) (getD_pos _ _ hz pz)
  have h5' : 0 < v1Arg.getD (riskProfiles rp).w1 +
      v2Arg.getD (riskProfiles rp).w2 + v3Arg.getD (riskProfiles rp).w3 +
      v4Arg.getD (riskProfiles rp).w4 + v5Arg.getD (riskProfiles rp).w5 :=
    add_pos (add_pos (add_pos (add_pos
      (getD_pos _ _ h1 p1) (getD_pos _ _ h2 p2)) (getD_pos _ _ h3 p3))
      (getD_pos _ _ h4 p4)) (getD_pos _ _ h5 p5)
  constructor
  · simp only [modelSum, RatingModel.init]
    exact scaled_group_sum6 _ _ _ _ _ _ h6
  · simp only [fundamentalSum, RatingModel.init]
    exact scaled_group_sum5 _ _ _ _ _ h5'

/-- Witness for C6 (amended) at the medium profile with no overrides. -/
theorem c6_weight_sums_witness :
    |modelSum (RatingModel.init .mediumRisk none none none none none none
        none none none none none) - 1| ≤ 1/100000000 + 1/100000 ∧
    |fundamentalSum (RatingModel.init .mediumRisk none none none none none
        none none none none none none) - 1| ≤ 1/100000000 + 1/100000 :=
  c6_weight_sums .mediumRisk none none none none none none none none none
    none none
    (fun _ h => Option.noConfusion h) (fun _ h => Option.noConfusion h)
    (fun _ h => Option.noConfusion h) (fun _ h => Option.noConfusion h)
    (fun _ h => Option.noConfusion h) (fun _ h => Option.noConfusion h)
    (fun _ h => Option.noConfusion h) (fun _ h => Option.noConfusion h)
    (fun _ h => Option.noConfusion h) (fun _ h => Option.noConfusion h)
    (fun _ h => Option.noConfusion h)

/-- C4 counterexample: the claim's D/E thresholds fail on the code.  With
sector average D/E = 1 and D/E = 0.6 (ratio 0.6 < 0.7, claimed score 1.0),
`calculate_fundamental_score` scores the D/E component 0.8: the source's
second bucket `< 0.8×`, not the claimed first bucket `< 0.7×`. -/
theorem c4_counterexample :
    (calculate_fundamental_score (RatingModel.ofProfile .mediumRisk)
        20 (3/5) (15/100) (5/100) (15/100) 20 1).de_component.normalized_score ≠
      claimDeScore (3/5) 1 := by
  norm_num [calculate_fundamental_score, normalizedDe, claimDeScore]

/-- C4 (amended): in `calculate_fundamental_score` the D/E component is
bucketed relative to the sector average with ratio thresholds <0.5×,
<0.8×, <1.2×, <1.5×, <2.0× (else), mapping to normalized scores 1.0, 0.8,
0.6, 0.4, 0.2, 0.0 respectively, and every negative D/E value receives
score 0 with the label "Negative (Poor)". -/
theorem c4_de_buckets (m : RatingModel)
    (pe de roe fcf_yield profit_margin sector_pe sector_de : ℚ) :
    (calculate_fundamental_score m pe de roe fcf_yield profit_margin
        sector_pe sector_de).de_component.normalized_score =
      amendedDeScore de sector_de ∧
    (calculate_fundamental_score m pe de roe fcf_yield profit_margin
        sector_pe sector_de).de_component.assessment =
      amendedDeLabel de sector_de ∧
    (de < 0 → amendedDeScore de sector_de = 0 ∧
      amendedDeLabel de sector_de = "Negative (Poor)") := by
  refine ⟨?_, ?_, fun hneg => ⟨?_, ?_⟩⟩
  · simp only [calculate_fundamental_score, normalizedDe, amendedDeScore]
    split_ifs <;> rfl
  · simp only [calculate_fundamental_score, normalizedDe, amendedDeLabel]
    split_ifs <;> rfl
  · simp [amendedDeScore, if_pos hneg]
  · simp [amendedDeLabel, if_pos hneg]

/-- Witness for C4 (amended) at a negative D/E value. -/
theorem c4_de_buckets_witness :
    ((-1 : ℚ) < 0) ∧
    (calculate_fundamental_score (RatingModel.ofProfile .mediumRisk) 20 (-1)
        (15/100) (5/100) (15/100) 20 (12/10)).de_component.normalized_score =
      amendedDeScore (-1) (12/10) ∧
    amendedDeScore (-1) (12/10) = 0 ∧
    amendedDeLabel (-1) (12/10) = "Negative (Poor)" := by
  have h := c4_de_buckets (RatingModel.ofProfile .mediumRisk) 20 (-1) (15/100)
    (5/100) (15/100) 20 (12/10)
  exact ⟨by norm_num, h.1, (h.2.2 (by norm_num)).1, (h.2.2 (by norm_num)).2⟩

/-- Inserting into a list lengthens it by one. -/
theorem length_insertDescByScore (r : EvalResult) (l : List EvalResult) :
    (insertDescByScore r l).length = l.length + 1 := by
  induction l with
  | nil => rfl
  | cons x xs ih =>
      simp only [insertDescByScore]
      split_ifs <;> simp [ih]

/-- Sorting by score preserves length. -/
theorem length_sortDescByScore (l : List EvalResult) :
    (sortDescByScore l).length = l.length := by
  induction l with
  | nil => rfl
  | cons x xs ih => simp [sortDescByScore, length_insertDescByScore, ih]

/-- C8: the candidate set solved over is exactly the evaluated tickers with
investment score ≥ `min_investment_score` whenever at least one such ticker
exists (the top-3 fallback does not engage); with scores 0.9, 0.8, 0.1 and
threshold 0.85 exactly the first ticker is kept; and a nonempty evaluated
set never yields an empty candidate set. -/
theorem c8_candidate_filter (results : List EvalResult) (min_score : ℚ) :
    ((∃ r ∈ results, min_score ≤ r.investment_score) →
      selectCandidates min_score results =
        results.filter fun r => min_score ≤ r.investment_score) ∧
    (results ≠ [] → selectCandidates min_score results ≠ []) ∧
    selectCandidates (85/100)
        [⟨"A", 9/10, 0, 0, 0⟩, ⟨"B", 8/10, 0, 0, 0⟩, ⟨"C", 1/10, 0, 0, 0⟩] =
      [⟨"A", 9/10, 0, 0, 0⟩] := by
  refine ⟨fun ⟨r, hr, hs⟩ => ?_, fun hne => ?_, ?_⟩
  · have hmem : r ∈ results.filter
        (fun r => decide (min_score ≤ r.investment_score)) :=
      List.mem_filter.mpr ⟨hr, by simpa using hs⟩
    have hne2 : results.filter
        (fun r => decide (min_score ≤ r.investment_score)) ≠ [] :=
      List.ne_nil_of_mem hmem
    simp only [selectCandidates]
    rw [if_neg]
    simpa using hne2
  · simp only [selectCandidates]
    split_ifs with hemp
    · have hlen : results.length ≠ 0 := by
        simpa using fun h0 => hne (List.eq_nil_of_length_eq_zero h0)
      intro hcon
      have hl := congrArg List.length hcon
      simp only [nlargestByScore, List.length_take, length_sortDescByScore,
        List.length_nil] at hl
      omega
    · exact fun hcon => hemp (by rw [hcon]; rfl)
  · norm_num [selectCandidates, List.filter]

/-- Witness for C8 at the concrete three-candidate example. -/
theorem c8_candidate_filter_witness :
    (∃ r ∈ ([⟨"A", 9/10, 0, 0, 0⟩, ⟨"B", 8/10, 0, 0, 0⟩,
        ⟨"C", 1/10, 0, 0, 0⟩] : List EvalResult),
      (85/100 : ℚ) ≤ r.investment_score) ∧
    selectCandidates (85/100)
        [⟨"A", 9/10, 0, 0, 0⟩, ⟨"B", 8/10, 0, 0, 0⟩, ⟨"C", 1/10, 0, 0, 0⟩] =
      ([⟨"A", 9/10, 0, 0, 0⟩, ⟨"B", 8/10, 0, 0, 0⟩,
        ⟨"C", 1/10, 0, 0, 0⟩] : List EvalResult).filter
        (fun r => (85/100 : ℚ) ≤ r.investment_score) ∧
    selectCandidates (85/100)
        [⟨"A", 9/10, 0, 0, 0⟩, ⟨"B", 8/10, 0, 0, 0⟩, ⟨"C", 1/10, 0, 0, 0⟩] ≠
      [] := by
  have hex : ∃ r ∈ ([⟨"A", 9/10, 0, 0, 0⟩, ⟨"B", 8/10, 0, 0, 0⟩,
      ⟨"C", 1/10, 0, 0, 0⟩] : List EvalResult),
      (85/100 : ℚ) ≤ r.investment_score :=
    ⟨⟨"A", 9/10, 0, 0, 0⟩, by norm_num⟩
  have h := c8_candidate_filter
    [⟨"A", 9/10, 0, 0, 0⟩, ⟨"B", 8/10, 0, 0, 0⟩, ⟨"C", 1/10, 0, 0, 0⟩]
    (85/100)
  exact ⟨hex, h.1 hex, h.2.1 (by simp)⟩

/-- Values of the 50-day-MA sentiment component. -/
theorem ma50Component_values (t : TechnicalIndicators) :
    ∀ v ∈ ma50Component t, v = 0 ∨ v = 1/2 ∨ v = 1 := by
  intro v hv
  unfold ma50Component at hv
  rcases hp : t.price with _ | p <;> rcases hm : t.ma50 with _ | m <;>
    rw [hp, hm] at hv <;> simp at hv
  split_ifs at hv <;> simp [hv]

/-- Values of the 200-day-MA sentiment component. -/
theorem ma200Component_values (t : TechnicalIndicators) :
    ∀ v ∈ ma200Component t, v = 0 ∨ v = 1/2 ∨ v = 1 := by
  intro v hv
  unfold ma200Component at hv
  rcases hp : t.price with _ | p <;> rcases hm : t.ma200 with _ | m <;>
    rw [hp, hm] at hv <;> simp at hv
  split_ifs at hv <;> simp [hv]

/-- Values of the RSI sentiment component. -/
theorem rsiComponent_values (t : TechnicalIndicators) :
    ∀ v ∈ rsiComponent t, v = 0 ∨ v = 1/2 ∨ v = 1 := by
  intro v hv
  unfold rsiComponent at hv
  rcases hr : t.rsi with _ | r <;> rw [hr] at hv <;> simp at hv
  unfold rsiScore at hv
  split_ifs at hv <;> simp [hv]

/-- Values of the MACD sentiment component. -/
theorem macdComponent_values (t : TechnicalIndicators) :
    ∀ v ∈ macdComponent t, v = 0 ∨ v = 1/2 ∨ v = 1 := by
  intro v hv
  unfold macdComponent at hv
  rcases hx : t.macd with _ | x <;> rcases hy : t.macdSignal with _ | y <;>
    rw [hx, hy] at hv <;> simp at hv
  split_ifs at hv <;> simp [hv]

/-- Values of the volume sentiment component. -/
theorem volumeComponent_values (t : TechnicalIndicators) :
    ∀ v ∈ volumeComponent t, v = 0 ∨ v = 1/2 ∨ v = 1 := by
  intro v hv
  unfold volumeComponent at hv
  rcases hx : t.volume with _ | x <;> rcases hy : t.avgVolume with _ | y <;>
    rw [hx, hy] at hv <;> simp at hv
  split_ifs at hv <;> simp [hv]

/-- Every sentiment component value is 0, 0.5 or 1. -/
theorem sentimentComponents_values (t : TechnicalIndicators) :
    ∀ v ∈ sentimentComponents t, v = 0 ∨ v = 1/2 ∨ v = 1 := by
  intro v hv
  simp only [sentimentComponents, List.mem_append] at hv
  rcases hv with (((h | h) | h) | h) | h
  · exact ma50Component_values t v h
  · exact ma200Component_values t v h
  · exact rsiComponent_values t v h
  · exact macdComponent_values t v h
  · exact volumeComponent_values t v h

/-- C9: the sentiment composite equals the arithmetic mean of the values of
exactly the indicators present in the input — each value in [0,1], absent
indicators shrinking the denominator — it is 0 when no indicator is
available, and the RSI indicator is graded 1.0 in the healthy 30-70 range,
0.5 below 30 and 0.0 above 70. -/
theorem c9_sentiment_mean (t : TechnicalIndicators) :
    (sentimentComponents t = [] → calculate_sentiment_score t = 0) ∧
    (sentimentComponents t ≠ [] →
      calculate_sentiment_score t =
        (sentimentComponents t).sum / ((sentimentComponents t).length : ℚ)) ∧
    (∀ v ∈ sentimentComponents t, 0 ≤ v ∧ v ≤ 1) ∧
    (∀ r, t.rsi = some r →
      rsiComponent t = [rsiScore r] ∧
      (30 ≤ r → r ≤ 70 → rsiScore r = 1) ∧
      (r < 30 → rsiScore r = 1/2) ∧
      (70 < r → rsiScore r = 0)) := by
  refine ⟨fun h => ?_, fun h => ?_, fun v hv => ?_, fun r hr => ?_⟩
  · simp [calculate_sentiment_score, h]
  · have hpos : 0 < (sentimentComponents t).length := List.length_pos.mpr h
    simp [calculate_sentiment_score, Nat.max_eq_right hpos]
  · rcases sentimentComponents_values t v hv with h | h | h <;>
      rw [h] <;> norm_num
  · refine ⟨by simp [rsiComponent, hr], fun h30 h70 => ?_, fun h30 => ?_,
      fun h70 => ?_⟩
    · unfold rsiScore
      rw [if_neg (by linarith), if_neg (by linarith)]
    · unfold rsiScore
      rw [if_neg (by linarith), if_pos h30]
    · unfold rsiScore
      rw [if_pos h70]

/-- Witness for C9 at indicators with only the 50-day-MA signal present. -/
theorem c9_sentiment_mean_witness :
    sentimentComponents indicatorsMa50Only ≠ [] ∧
    calculate_sentiment_score indicatorsMa50Only =
      (sentimentComponents indicatorsMa50Only).sum /
        ((sentimentComponents indicatorsMa50Only).length : ℚ) := by
  have hne : sentimentComponents indicatorsMa50Only ≠ [] := by
    simp [sentimentComponents, ma50Component, ma200Component, rsiComponent,
      macdComponent, volumeComponent, indicatorsMa50Only]
  exact ⟨hne, (c9_sentiment_mean indicatorsMa50Only).2.1 hne⟩

/-- The mean of an all-zero column is 0. -/
theorem listMean_replicate_zero (n : ℕ) :
    listMean (List.replicate n (0:ℚ)) = 0 := by
  simp [listMean]

/-- Sample covariance against an all-zero first column is 0. -/
theorem sampleCov_replicate_zero_left (n : ℕ) (ys : List ℚ) :
    sampleCov (List.replicate n 0) ys = 0 := by
  unfold sampleCov
  rw [listMean_replicate_zero]
  have hz : ∀ x ∈ ((List.replicate n (0:ℚ)).zip ys).map
      (fun p => (p.1 - 0) * (p.2 - listMean ys)), x = 0 := by
    intro x hx
    rcases List.mem_map.mp hx with ⟨p, hp, rfl⟩
    have h1 : p.1 ∈ List.replicate n (0:ℚ) := (List.of_mem_zip hp).1
    rw [List.eq_of_mem_replicate h1]
    ring
  rw [List.sum_eq_zero hz, zero_div]

/-- Sample covariance against an all-zero second column is 0. -/
theorem sampleCov_replicate_zero_right (xs : List ℚ) (n : ℕ) :
    sampleCov xs (List.replicate n 0) = 0 := by
  unfold sampleCov
  rw [listMean_replicate_zero]
  have hz : ∀ x ∈ (xs.zip (List.replicate n (0:ℚ))).map
      (fun p => (p.1 - listMean xs) * (p.2 - 0)), x = 0 := by
    intro x hx
    rcases List.mem_map.mp hx with ⟨p, hp, rfl⟩
    have h2 : p.2 ∈ List.replicate n (0:ℚ) := (List.of_mem_zip hp).2
    rw [List.eq_of_mem_replicate h2]
    ring
  rw [List.sum_eq_zero hz, zero_div]

/-- C5 counterexample: the claim fails on the code.  With tickers
["A", "B"] where only "A" has retrievable history, the missing ticker "B"
is given an all-zero returns column, so its diagonal entry is 0, not the
claimed fallback variance 0.04. -/
theorem c5_counterexample :
    calculate_covariance_matrix ["A", "B"] histDataAOnly "B" "B" ≠ 4/100 := by
  have h : calculate_covariance_matrix ["A", "B"] histDataAOnly "B" "B" =
      sampleCov (List.replicate 3 0) (List.replicate 3 0) * 252 := rfl
  rw [h, sampleCov_replicate_zero_left]
  norm_num

/-- C5 (amended): in `calculate_covariance_matrix`, when no requested
ticker has retrievable history the returned matrix has 0.04 on the
diagonal and 0.02 everywhere off the diagonal; but when at least one
ticker has history, every ticker with unavailable history is included as
an all-zero returns column, so its variance and its covariance against
every ticker are 0 — not the fallback values 0.04/0.02. -/
theorem c5_fallback (tickers : List String)
    (histData : String → Option (List ℚ)) :
    ((∀ t ∈ tickers, histData t = none) →
      ∀ i ∈ tickers, ∀ j ∈ tickers,
        calculate_covariance_matrix tickers histData i j =
          if i = j then 4/100 else 2/100) ∧
    ((∃ u ∈ tickers, (histData u).isSome) →
      ∀ t ∈ tickers, histData t = none →
        ∀ w, calculate_covariance_matrix tickers histData t w = 0 ∧
          calculate_covariance_matrix tickers histData w t = 0) := by
  constructor
  · intro hall i _ j _
    have hnil : (tickers.filter fun t => (histData t).isSome) = [] := by
      rw [List.filter_eq_nil_iff]
      intro t ht
      simp [hall t ht]
    simp only [calculate_covariance_matrix, hnil]
    rfl
  · rintro ⟨u, hu, hus⟩ t _ htn w
    have hne : (tickers.filter fun t => (histData t).isSome) ≠ [] :=
      List.ne_nil_of_mem (List.mem_filter.mpr ⟨hu, by simpa using hus⟩)
    have hemp : (tickers.filter fun t => (histData t).isSome).isEmpty = false := by
      rw [List.isEmpty_eq_false]
      exact hne
    have hcol : tickerColumn histData
        ((((tickers.filter fun t => (histData t).isSome).head?.bind
          histData).getD []).length) t =
        List.replicate ((((tickers.filter fun t =>
          (histData t).isSome).head?.bind histData).getD []).length) 0 := by
      simp [tickerColumn, htn]
    simp only [calculate_covariance_matrix, hemp]
    rw [if_neg (by simp)]
    constructor
    · rw [hcol, sampleCov_replicate_zero_left]
      norm_num
    · rw [hcol, sampleCov_replicate_zero_right]
      norm_num

/-- Witness for C5 (amended): with only ticker "A" retrievable, the missing
ticker "B" has zero variance. -/
theorem c5_fallback_witness :
    (∃ u ∈ ["A", "B"], (histDataAOnly u).isSome) ∧
    histDataAOnly "B" = none ∧
    calculate_covariance_matrix ["A", "B"] histDataAOnly "B" "B" = 0 := by
  have hex : ∃ u ∈ ["A", "B"], (histDataAOnly u).isSome :=
    ⟨"A", by simp, by simp [histDataAOnly]⟩
  have hB : histDataAOnly "B" = none := rfl
  exact ⟨hex, hB,
    ((c5_fallback ["A", "B"] histDataAOnly).2 hex "B" (by simp) hB "B").1⟩

/-- C3 counterexample: the claim's annualization formula fails on the code.
For the two-point history [100, 400] the total return is 3, and the source
computes `(1 + 3) ** (1 / max(2/252, 1)) - 1 = 3`, while the claimed
formula `(1 + 3) ** (252/2) - 1 = 4^126 - 1` is astronomically larger. -/
theorem c3_counterexample :
    (calculate_historical_returns [100, 400]).annualized_return ≠
      specAnnualizedReturn [100, 400] := by
  have htot : totalReturn [100, 400] = 3 := by
    norm_num [totalReturn, List.getD_cons_zero, List.getD_cons_succ]
  have hlhs : (calculate_historical_returns [100, 400]).annualized_return =
      3 := by
    have hnot : ¬ ([100, 400] : List ℚ).length < 2 := by norm_num
    simp only [calculate_historical_returns, if_neg hnot]
    unfold annualizedReturn
    rw [htot]
    have hmax : max ((([100, 400] : List ℚ).length : ℝ) / 252) 1 = 1 :=
      max_eq_right (by norm_num)
    rw [hmax, div_one, Real.rpow_one]
    norm_num
  have hrhs : specAnnualizedReturn [100, 400] = (4:ℝ) ^ (126:ℕ) - 1 := by
    unfold specAnnualizedReturn
    rw [htot]
    have hexp : ((252:ℝ) / ((([100, 400] : List ℚ).length : ℝ))) =
        ((126:ℕ) : ℝ) := by
      norm_num
    rw [hexp, Real.rpow_natCast]
    norm_num
  rw [hlhs, hrhs]
  norm_num

/-- C3 (amended): for histories with fewer than 2 points every return
metric is exactly 0; for n ≥ 2 points the code annualizes with the
exponent `1 / max(n/252, 1)` rather than the claimed `252/n`: for
2 ≤ n ≤ 252 the annualized return simply equals the total return, and only
for n ≥ 252 does it equal `(1 + total_return)^(252/n) - 1`. -/
theorem c3_annualization (price_history : List ℚ) :
    (price_history.length < 2 →
      calculate_historical_returns price_history = ⟨0, 0, 0, 0, 0⟩) ∧
    (2 ≤ price_history.length →
      (calculate_historical_returns price_history).total_return =
        totalReturn price_history ∧
      (price_history.length ≤ 252 →
        (calculate_historical_returns price_history).annualized_return =
          (totalReturn price_history : ℝ)) ∧
      (252 ≤ price_history.length →
        (calculate_historical_returns price_history).annualized_return =
          (1 + (totalReturn price_history : ℝ)) ^
            ((252:ℝ) / (price_history.length : ℝ)) - 1)) := by
  constructor
  · intro h
    simp [calculate_historical_returns, if_pos h]
  · intro h2
    have hnot : ¬ price_history.length < 2 := not_lt.mpr h2
    refine ⟨?_, fun hle => ?_, fun hge => ?_⟩
    · simp [calculate_historical_returns, if_neg hnot]
    · simp only [calculate_historical_returns, if_neg hnot]
      unfold annualizedReturn
      have hmax : max ((price_history.length : ℝ) / 252) 1 = 1 :=
        max_eq_right (by
          rw [div_le_one (by norm_num)]
          exact_mod_cast hle)
      rw [hmax, div_one, Real.rpow_one]
      ring
    · simp only [calculate_historical_returns, if_neg hnot]
      unfold annualizedReturn
      have hmax : max ((price_history.length : ℝ) / 252) 1 =
          (price_history.length : ℝ) / 252 :=
        max_eq_left (by
          rw [le_div_iff₀ (by norm_num : (0:ℝ) < 252), one_mul]
          exact_mod_cast hge)
      rw [hmax, one_div_div]

/-- Witness for C3 (amended) at the two-point history [100, 400]: the
annualized return equals the total return 3. -/
theorem c3_annualization_witness :
    2 ≤ ([100, 400] : List ℚ).length ∧
    ([100, 400] : List ℚ).length ≤ 252 ∧
    (calculate_historical_returns [100, 400]).annualized_return =
      ((totalReturn [100, 400] : ℚ) : ℝ) ∧
    totalReturn [100, 400] = 3 := by
  refine ⟨by norm_num, by norm_num, ?_, ?_⟩
  · exact ((c3_annualization [100, 400]).2 (by norm_num)).2.1 (by norm_num)
  · norm_num [totalReturn, List.getD_cons_zero, List.getD_cons_succ]

end ChainReaction
